import Mathlib

/-!
Shallow embedding of `scripts/evaluate_navier_stokes.py`, the evaluation
script for a pretrained Navier-Stokes neural operator.  The script is pure
orchestration: it parses CLI/TOML configuration, loads data, builds a model
and data processor, optionally wraps the loaders for distributed execution,
restores a checkpoint inside the only try/except of the file, evaluates and
prints metrics, and finally tears down the distributed process group.

External library calls (dataset loader, model builder, trainer methods,
`torch.distributed`) are modelled as oracles in an `Env` record; the control
flow, the arguments passed at each call site, the printed strings and the
exception/exit behaviour are embedded faithfully from the source.  The run
is represented as a list of observable events plus an outcome.
-/

namespace EvalNS

/-- A scalar TOML value, as produced by `tomllib.load` for non-dict leaves.
`pyStr` below renders it the way Python `str()` does. -/
inductive TomlLeaf where
  | str (s : String)
  | int (n : Int)
  | bool (b : Bool)
deriving DecidableEq

/-- Python `str()` on a leaf value: strings render as themselves, integers in
decimal, booleans as `True` / `False`. -/
def pyStr : TomlLeaf → String
  | .str s => s
  | .int n => toString n
  | .bool b => if b then "True" else "False"

mutual
/-- A TOML value: either a non-dict leaf or a nested dictionary (table). -/
inductive Toml where
  | leaf : TomlLeaf → Toml
  | table : TomlDict → Toml
deriving DecidableEq

/-- A TOML dictionary in insertion order: the association list Python
iterates over with `d.items()`. -/
inductive TomlDict where
  | nil : TomlDict
  | cons : String → Toml → TomlDict → TomlDict
deriving DecidableEq
end

/-- Embedding of `flatten_to_args(d, prefix="")` from the script: walk the
dictionary in order; for a nested dict recurse with the extended key, for a
leaf emit `--key` followed by `str(v)`.  The key is `f"{prefix}.{k}"` when
the prefix is truthy (non-empty) and plain `k` otherwise. -/
def flatten_to_args : TomlDict → String → List String
  | .nil, _ => []
  | .cons k v rest, pref =>
    let key := if pref = "" then k else pref ++ "." ++ k
    (match v with
     | .table d => flatten_to_args d key
     | .leaf l => ["--" ++ key, pyStr l]) ++ flatten_to_args rest pref

/-- Embedding of the `sys.argv` rebuild on the `--config` path:
`sys.argv = [sys.argv[0]] + file_args + unknown`. -/
def rebuild_argv (argv0 : String) (d : TomlDict) (unknown : List String) :
    List String :=
  argv0 :: (flatten_to_args d "" ++ unknown)

/-- Keys of a leaf joined by dots, as the spec words it
("keys joined by dots"). -/
def dotJoin : List String → String
  | [] => ""
  | [k] => k
  | k :: ks => k ++ "." ++ dotJoin ks

/-- All leaves of a dictionary with the full key path leading to them, in
iteration order. -/
def leavesOf : TomlDict → List (List String × TomlLeaf)
  | .nil => []
  | .cons k v rest =>
    (match v with
     | .leaf l => [([k], l)]
     | .table d => (leavesOf d).map (fun p => (k :: p.1, p.2))) ++ leavesOf rest

/-- Emission described by the spec, generalised over an outer prefix: for each
leaf the pair `--path` / `str(v)`, where the path joins the prefix (when
non-empty) with the keys by dots. -/
def joinKey (pref : String) (path : List String) : String :=
  if pref = "" then dotJoin path else dotJoin (pref :: path)

/-- Concatenate the spec pairs for a list of leaves under a prefix. -/
def emitAll : List (List String × TomlLeaf) → String → List String
  | [], _ => []
  | p :: rest, pref =>
    ["--" ++ joinKey pref p.1, pyStr p.2] ++ emitAll rest pref

/-- The flattening described by the spec sentence: for every leaf reachable
through keys `k1, ..., kn`, the consecutive pair `--k1.....kn` (keys joined
by dots, prefixed with `--`) followed by `str(v)`, in iteration order. -/
def spec_flatten (d : TomlDict) : List String :=
  emitAll (leavesOf d) ""

/-- All keys occurring in a dictionary (at any depth) are non-empty. -/
def dictKeysNonempty : TomlDict → Bool
  | .nil => true
  | .cons k v rest =>
    (k != "") &&
    (match v with
     | .leaf _ => true
     | .table d => dictKeysNonempty d) && dictKeysNonempty rest

/-- Result of `parser.parse_known_args()` for the two registered options of
the script: `--config` (default `None`) and `--checkpoint`
(default `"./ckpt"`). -/
structure ParsedArgs where
  config : Option String
  checkpoint : String
deriving DecidableEq

/-- Model of `argparse.parse_known_args` for the two options the script
registers: `--config VALUE` and `--checkpoint VALUE` set the respective
field, anything else is collected into the unknown list. -/
def parse_known_args : List String → ParsedArgs → ParsedArgs × List String
  | [], acc => (acc, [])
  | [a], acc => (acc, [a])
  | a :: b :: rest, acc =>
    if a = "--config" then
      parse_known_args rest { acc with config := some b }
    else if a = "--checkpoint" then
      parse_known_args rest { acc with checkpoint := b }
    else
      let r := parse_known_args (b :: rest) acc
      (r.1, a :: r.2)

/-- Parse the command-line arguments after the program name, starting from
the argparse defaults `config=None`, `checkpoint="./ckpt"`. -/
def parse_args (argv : List String) : ParsedArgs × List String :=
  parse_known_args argv { config := none, checkpoint := "./ckpt" }

/-- The configuration fields of `config.navier_stokes_config.Default` that the
script reads.  Opaquely threaded scalars (padding fraction, learning rate and
so on) are modelled as abstract identifiers. -/
structure Config where
  verbose : Bool
  folder : String
  train_resolution : Nat
  n_train : Nat
  batch_size : Nat
  test_resolutions : List Nat
  n_tests : List Nat
  test_batch_sizes : List Nat
  encode_input : Bool
  encode_output : Bool
  patching_levels : Nat
  patching_padding : Nat
  patching_stitching : Bool
  use_distributed : Bool
  learning_rate : Nat
  n_epochs : Nat
  mixed_precision : Bool
  eval_interval : Nat
  wandb_log_output : Bool
deriving DecidableEq

/-- A `torch.utils.data.DistributedSampler(db, rank=get_local_rank())` over a
dataset, identified by the dataset it samples and the rank passed. -/
structure Sampler where
  dataset : Nat
  rank : Nat
deriving DecidableEq

/-- A `DataLoader`, identified by its underlying dataset, batch size, shuffle
flag and optional sampler. -/
structure Loader where
  dataset : Nat
  batch_size : Nat
  shuffle : Bool
  sampler : Option Sampler
deriving DecidableEq

/-- The data processor returned by `load_navier_stokes_pt`, of which the
script only reads the two normalizers. -/
structure OrigProc where
  in_normalizer : Nat
  out_normalizer : Nat
deriving DecidableEq

/-- The data-processor object the script ends up with: either the original
one from the dataset loader, or an `MGPatchingDataProcessor` built with the
keyword arguments of the source. -/
inductive ProcessorCore where
  | orig (p : OrigProc)
  | mgPatching (model : Nat) (in_normalizer : Nat) (out_normalizer : Nat)
      (padding_fraction : Nat) (stitching : Bool) (levels : Nat)
      (use_distributed : Bool)
deriving DecidableEq

/-- A data processor together with the device it was moved to by
`.to(device)` (`none` before any move). -/
structure Processor where
  core : ProcessorCore
  device : Option Nat
deriving DecidableEq

/-- Embedding of lines 96-107: when `config.patching.levels > 0` the
processor is replaced by an `MGPatchingDataProcessor` built from the model,
the original normalizers and the patching config; in either case the result
is moved to the device. -/
def setupProcessor (cfg : Config) (model : Nat) (orig : OrigProc)
    (device : Nat) : Processor :=
  let core :=
    if cfg.patching_levels > 0 then
      ProcessorCore.mgPatching model orig.in_normalizer orig.out_normalizer
        cfg.patching_padding cfg.patching_stitching cfg.patching_levels
        cfg.use_distributed
    else ProcessorCore.orig orig
  { core := core, device := some device }

/-- A `DataLoader` built around a `DistributedSampler` on dataset `db` with
the given batch size and rank; `shuffle` is False (the train loader omits it,
so the `DataLoader` default `False` applies; the test loaders pass it
explicitly). -/
def distLoader (db : Nat) (bs : Nat) (rank : Nat) : Loader :=
  { dataset := db, batch_size := bs, shuffle := false,
    sampler := some { dataset := db, rank := rank } }

/-- Embedding of the test-loader loop of lines 116-123:
`zip(test_loaders.items(), config.data.test_batch_sizes)` pairs loaders with
batch sizes, truncating at the shorter list, and reassigns
`test_loaders[res]` to a distributed loader with `shuffle=False`. -/
def wrapTests (rank : Nat) :
    List (Nat × Loader) → List Nat → List (Nat × Loader)
  | [], _ => []
  | ts, [] => ts
  | (res, loader) :: ts, b :: bs =>
    (res, distLoader loader.dataset b rank) :: wrapTests rank ts bs

/-- Embedding of lines 110-123: when `config.distributed.use_distributed` is
set, the train loader is rebuilt over its own dataset with the configured
batch size and a distributed sampler, and each test loader is rebuilt with
its zipped test batch size; otherwise both are left untouched. -/
def wrapLoaders (cfg : Config) (rank : Nat) (train : Loader)
    (tests : List (Nat × Loader)) : Loader × List (Nat × Loader) :=
  if cfg.use_distributed then
    (distLoader train.dataset cfg.batch_size rank,
     wrapTests rank tests cfg.test_batch_sizes)
  else (train, tests)

/-- A loss object from `neuralop`. -/
inductive Loss where
  | lpLoss (d : Nat) (p : Nat)
  | h1Loss (d : Nat)
deriving DecidableEq

/-- The `eval_losses` dictionary of lines 130-132:
`{"h1": H1Loss(d=2), "l2": LpLoss(d=2, p=2)}`. -/
def eval_losses : List (String × Loss) :=
  [("h1", Loss.h1Loss 2), ("l2", Loss.lpLoss 2 2)]

/-- The keyword arguments the script passes to `Trainer(...)`. -/
structure TrainerArgs where
  model : Nat
  n_epochs : Nat
  data_processor : Processor
  device : Nat
  mixed_precision : Bool
  eval_interval : Nat
  log_output : Bool
  use_distributed : Bool
  verbose : Bool
  wandb_log : Bool
deriving DecidableEq

/-- Observable events of a run of `main`: printed lines, the trainer
construction, the checkpoint-restore call, the `evaluate_all` call and the
distributed teardown. -/
inductive Event where
  | print (s : String)
  | printConfig (cfg : Config)
  | mkTrainer (t : TrainerArgs)
  | resumeFromDir (dir : String)
  | evaluateAll (epoch : Nat) (losses : List (String × Loss))
      (test_loaders : List (Nat × Loader)) (eval_modes : List (String × String))
  | destroyProcessGroup
deriving DecidableEq

/-- How a run of `main` ends: it falls off the end, calls `sys.exit(code)`,
or an uncaught exception propagates out. -/
inductive Outcome where
  | finished
  | exited (code : Nat)
  | raised (e : String)
deriving DecidableEq

/-- Oracle environment for one run: the parsed configuration, the values the
external library calls return, and for each fallible stage an optional
exception (`some e` makes that stage raise `e`). -/
structure Env where
  checkpoint_dir : String
  config : Config
  configExn : Option String
  is_logger : Bool
  device : Nat
  rank : Nat
  dataExn : Option String
  train_loader : Loader
  test_loaders : List (Nat × Loader)
  orig_processor : OrigProc
  modelExn : Option String
  model_id : Nat
  procExn : Option String
  resumeExn : Option String
  evalExn : Option String
  metrics : List (String × String)
  dist_initialized : Bool

/-- The hint printed when checkpoint loading fails. -/
def hintMsg : String :=
  "Ensure you pointed to a directory containing \x27best_model_state_dict.pt\x27 or \x27model_state_dict.pt\x27"

/-- The effective configuration after line 69,
`config.verbose = config.verbose and is_logger`. -/
def effConfig (env : Env) : Config :=
  { env.config with verbose := env.config.verbose && env.is_logger }

/-- The keyword arguments of the `Trainer(...)` construction of lines
134-145, with `wandb_log=False` hard-coded as in the source. -/
def trainerArgsOf (env : Env) : TrainerArgs :=
  { model := env.model_id, n_epochs := (effConfig env).n_epochs,
    data_processor :=
      setupProcessor (effConfig env) env.model_id env.orig_processor env.device,
    device := env.device,
    mixed_precision := (effConfig env).mixed_precision,
    eval_interval := (effConfig env).eval_interval,
    log_output := (effConfig env).wandb_log_output,
    use_distributed := (effConfig env).use_distributed,
    verbose := (effConfig env).verbose,
    wandb_log := false }

/-- Events up to and including the `"Loading data..."` print of line 79: the
config banner and config are printed only when the effective verbose flag is
set. -/
def preTrace (env : Env) : List Event :=
  (if (effConfig env).verbose then
     [Event.print "##### CONFIG #####\n", Event.printConfig (effConfig env)]
   else []) ++ [Event.print "Loading data..."]

/-- Events of lines 134-151: trainer construction, the checkpoint print and
the `resume_state_from_dir` call. -/
def midTrace (env : Env) : List Event :=
  [Event.mkTrainer (trainerArgsOf env),
   Event.print ("Loading checkpoint from " ++ env.checkpoint_dir ++ "..."),
   Event.resumeFromDir env.checkpoint_dir]

/-- Events of the except-branch, lines 153-155: the exception and the hint. -/
def failTrace (e : String) : List Event :=
  [Event.print ("Error loading checkpoint: " ++ e), Event.print hintMsg]

/-- Events of lines 152-165: the success print, the evaluation banner and the
`evaluate_all` call with `epoch=0`, the (possibly distributed-wrapped) test
loaders, the two-entry loss dictionary and empty `eval_modes`. -/
def postTrace (env : Env) : List Event :=
  [Event.print "Checkpoint loaded successfully.",
   Event.print "Starting evaluation...",
   Event.evaluateAll 0 eval_losses
     (wrapLoaders (effConfig env) env.rank env.train_loader env.test_loaders).2
     []]

/-- Events of lines 167-169: the results banner and one `"{k}: {v}"` line per
metric entry. -/
def resultsTrace (env : Env) : List Event :=
  Event.print "\n### Evaluation Results ###" ::
  env.metrics.map (fun kv => Event.print (kv.1 ++ ": " ++ kv.2))

/-- Embedding of `main()`: the straight-line flow of the script with each
fallible stage consulting its oracle.  Any exception before the checkpoint
restore propagates (config parsing, data loading, model construction,
data-processor setup); an exception in `resume_state_from_dir` is caught,
two messages are printed and the script exits with status 1; an exception in
`evaluate_all` propagates; otherwise metrics are printed and, when a process
group is initialized, it is destroyed as the very last step. -/
def runMain (env : Env) : List Event × Outcome :=
  match env.configExn with
  | some e => ([], Outcome.raised e)
  | none =>
    match env.dataExn with
    | some e => (preTrace env, Outcome.raised e)
    | none =>
    match env.modelExn with
    | some e => (preTrace env, Outcome.raised e)
    | none =>
    match env.procExn with
    | some e => (preTrace env, Outcome.raised e)
    | none =>
      let tr3 := preTrace env ++ midTrace env
      match env.resumeExn with
      | some e => (tr3 ++ failTrace e, Outcome.exited 1)
      | none =>
        let tr4 := tr3 ++ postTrace env
        match env.evalExn with
        | some e => (tr4, Outcome.raised e)
        | none =>
          let tr5 := tr4 ++ resultsTrace env
          if env.dist_initialized then
            (tr5 ++ [Event.destroyProcessGroup], Outcome.finished)
          else (tr5, Outcome.finished)

/-- The `evaluate_all` call events of a trace. -/
def evalCalls : List Event → List Event
  | [] => []
  | Event.evaluateAll n ls tl em :: tr =>
    Event.evaluateAll n ls tl em :: evalCalls tr
  | _ :: tr => evalCalls tr

/-! ### Helper lemmas about TOML flattening -/

theorem dot_append_ne_empty (s t : String) : s ++ "." ++ t ≠ "" := by
  intro h
  have h2 := congrArg String.length h
  rw [String.length_append, String.length_append] at h2
  have h3 : ("." : String).length = 1 := rfl
  have h4 : ("" : String).length = 0 := rfl
  omega

theorem dotJoin_glue (pref k : String) (path : List String) :
    dotJoin ((pref ++ "." ++ k) :: path) = dotJoin (pref :: k :: path) := by
  cases path with
  | nil => simp [dotJoin]
  | cons x xs => simp [dotJoin, String.append_assoc]

theorem joinKey_extend (pref k : String) (path : List String) (hk : k ≠ "") :
    joinKey (if pref = "" then k else pref ++ "." ++ k) path =
      joinKey pref (k :: path) := by
  by_cases hp : pref = ""
  · simp [hp, joinKey, hk]
  · simp [hp, joinKey, dot_append_ne_empty pref k, dotJoin_glue]

theorem joinKey_single (pref k : String) :
    joinKey pref [k] = if pref = "" then k else pref ++ "." ++ k := by
  by_cases hp : pref = "" <;> simp [hp, joinKey, dotJoin]

theorem emitAll_append (a b : List (List String × TomlLeaf)) (pref : String) :
    emitAll (a ++ b) pref = emitAll a pref ++ emitAll b pref := by
  induction a with
  | nil => rfl
  | cons p rest ih => simp [emitAll, ih]

theorem emitAll_map_cons (l : List (List String × TomlLeaf)) (pref k : String)
    (hk : k ≠ "") :
    emitAll (l.map (fun p => (k :: p.1, p.2))) pref =
      emitAll l (if pref = "" then k else pref ++ "." ++ k) := by
  induction l with
  | nil => rfl
  | cons p rest ih => simp [emitAll, ih, joinKey_extend pref k p.1 hk]

theorem flatten_eq_emitAll : ∀ (d : TomlDict) (pref : String),
    dictKeysNonempty d = true →
    flatten_to_args d pref = emitAll (leavesOf d) pref
  | .nil, _, _ => rfl
  | .cons k (.leaf l) rest, pref, h => by
    have h' : k ≠ "" ∧ dictKeysNonempty rest = true := by
      simpa [dictKeysNonempty] using h
    simp only [flatten_to_args, leavesOf, List.singleton_append, emitAll]
    rw [flatten_eq_emitAll rest pref h'.2, joinKey_single]
    simp
  | .cons k (.table d) rest, pref, h => by
    have h' : k ≠ "" ∧ dictKeysNonempty d = true ∧ dictKeysNonempty rest = true := by
      simpa [dictKeysNonempty, and_assoc] using h
    simp only [flatten_to_args, leavesOf, emitAll_append,
      emitAll_map_cons _ _ _ h'.1]
    rw [flatten_eq_emitAll d _ h'.2.1, flatten_eq_emitAll rest pref h'.2.2]

/-- The dictionary `{"": {"x": 1}}`, a valid TOML document (a quoted empty
key), on which the truthiness test `if prefix` of the source drops the
leading dot. -/
def emptyKeyDict : TomlDict :=
  TomlDict.cons ""
    (Toml.table (TomlDict.cons "x" (Toml.leaf (TomlLeaf.int 1)) TomlDict.nil))
    TomlDict.nil

theorem parse_known_args_checkpoint : ∀ (args : List String) (acc : ParsedArgs),
    "--checkpoint" ∉ args →
    (parse_known_args args acc).1.checkpoint = acc.checkpoint
  | [], _, _ => rfl
  | [_], _, _ => rfl
  | a :: b :: rest, acc, h => by
    have ha : a ≠ "--checkpoint" := fun he => h (by simp [he])
    have hb : "--checkpoint" ∉ b :: rest := fun hm => h (by simp at hm ⊢; exact Or.inr hm)
    have hrest : "--checkpoint" ∉ rest := fun hm => hb (by simp [hm])
    by_cases hc : a = "--config"
    · simp [parse_known_args, hc,
        parse_known_args_checkpoint rest _ hrest]
    · simp [parse_known_args, hc, ha,
        parse_known_args_checkpoint (b :: rest) acc hb]

/-! ### Claims about configuration flattening and CLI parsing -/

/-- C2 (amended): when `--config` is given and every key of the TOML
dictionary is non-empty, `flatten_to_args` emits, for every non-dict leaf
value `v` reachable through nested keys `k1, ..., kn`, the consecutive pair
`--k1.....kn` (keys joined by dots, prefixed with `--`) followed by
`str(v)`, recursing into every nested dict in iteration order, and
`sys.argv` is rebuilt as the program name, then these flattened pairs, then
the unknown CLI arguments. -/
theorem claim_C2_toml_flattening (d : TomlDict) (argv0 : String)
    (unknown : List String) (h : dictKeysNonempty d = true) :
    flatten_to_args d "" = spec_flatten d ∧
    rebuild_argv argv0 d unknown = argv0 :: (spec_flatten d ++ unknown) := by
  refine ⟨flatten_eq_emitAll d "" h, ?_⟩
  rw [rebuild_argv, flatten_eq_emitAll d "" h]
  rfl

/-- C2 counterexample: on the valid TOML dictionary `{"": {"x": 1}}` the
leaf `1` is reachable through the keys `""` and `"x"`, whose dot-join is
`.x`, so the claim requires the pair `--.x` / `1`; the code instead emits
`--x` / `1` because the Python truthiness test `if prefix` drops the empty
prefix, and the string `--.x` never appears in the output. -/
theorem claim_C2_toml_flattening_counterexample :
    leavesOf emptyKeyDict = [(["", "x"], TomlLeaf.int 1)] ∧
    "--" ++ dotJoin ["", "x"] = "--.x" ∧
    flatten_to_args emptyKeyDict "" = ["--x", "1"] ∧
    "--.x" ∉ flatten_to_args emptyKeyDict "" := by
  refine ⟨rfl, rfl, rfl, ?_⟩
  decide

/-- A concrete nested dictionary with non-empty keys,
`{"data": {"batch_size": 4}, "verbose": true}`. -/
def sampleDict : TomlDict :=
  TomlDict.cons "data"
    (Toml.table (TomlDict.cons "batch_size" (Toml.leaf (TomlLeaf.int 4))
      TomlDict.nil))
    (TomlDict.cons "verbose" (Toml.leaf (TomlLeaf.bool true)) TomlDict.nil)

/-- Witness for C2 on `sampleDict`. -/
theorem claim_C2_toml_flattening_witness :
    dictKeysNonempty sampleDict = true ∧
    (flatten_to_args sampleDict "" = spec_flatten sampleDict ∧
     rebuild_argv "evaluate_navier_stokes.py" sampleDict ["--opt.n_epochs", "1"]
       = "evaluate_navier_stokes.py" ::
           (spec_flatten sampleDict ++ ["--opt.n_epochs", "1"])) :=
  ⟨by decide,
   claim_C2_toml_flattening sampleDict "evaluate_navier_stokes.py"
     ["--opt.n_epochs", "1"] (by decide)⟩

/-- C8: when the `--checkpoint` flag is not supplied on the command line,
the parsed checkpoint directory keeps the argparse default `./ckpt`. -/
theorem claim_C8_checkpoint_default (argv : List String)
    (h : "--checkpoint" ∉ argv) :
    (parse_args argv).1.checkpoint = "./ckpt" :=
  parse_known_args_checkpoint argv _ h

/-- Witness for C8: a command line with a config flag and an unknown flag
but no checkpoint flag. -/
theorem claim_C8_checkpoint_default_witness :
    "--checkpoint" ∉ ["--config", "cfg.toml", "--data.batch_size", "4"] ∧
    (parse_args ["--config", "cfg.toml", "--data.batch_size", "4"]).1.checkpoint
      = "./ckpt" :=
  ⟨by decide, claim_C8_checkpoint_default _ (by decide)⟩

/-! ### Helper lemmas about the run trace -/

theorem evalCalls_append (a b : List Event) :
    evalCalls (a ++ b) = evalCalls a ++ evalCalls b := by
  induction a with
  | nil => rfl
  | cons e tr ih => cases e <;> simp [evalCalls, ih]

theorem evalCalls_map_print (ms : List (String × String)) :
    evalCalls (ms.map fun kv => Event.print (kv.1 ++ ": " ++ kv.2)) = [] := by
  induction ms with
  | nil => rfl
  | cons m ms ih => simp [evalCalls, ih]

theorem evalCalls_preTrace (env : Env) : evalCalls (preTrace env) = [] := by
  cases h : (effConfig env).verbose <;>
    simp [preTrace, h, evalCalls, evalCalls_append]

theorem evalCalls_midTrace (env : Env) : evalCalls (midTrace env) = [] := by
  simp [midTrace, evalCalls]

theorem evalCalls_failTrace (e : String) : evalCalls (failTrace e) = [] := by
  simp [failTrace, evalCalls]

theorem evalCalls_postTrace (env : Env) :
    evalCalls (postTrace env) =
      [Event.evaluateAll 0 eval_losses
        (wrapLoaders (effConfig env) env.rank env.train_loader env.test_loaders).2
        []] := by
  simp [postTrace, evalCalls]

theorem evalCalls_resultsTrace (env : Env) :
    evalCalls (resultsTrace env) = [] := by
  simp [resultsTrace, evalCalls, evalCalls_map_print]

theorem destroy_not_mem_preTrace (env : Env) :
    Event.destroyProcessGroup ∉ preTrace env := by
  cases h : (effConfig env).verbose <;> simp [preTrace, h]

theorem destroy_not_mem_midTrace (env : Env) :
    Event.destroyProcessGroup ∉ midTrace env := by
  simp [midTrace]

theorem destroy_not_mem_failTrace (e : String) :
    Event.destroyProcessGroup ∉ failTrace e := by
  simp [failTrace]

theorem destroy_not_mem_postTrace (env : Env) :
    Event.destroyProcessGroup ∉ postTrace env := by
  simp [postTrace]

theorem destroy_not_mem_resultsTrace (env : Env) :
    Event.destroyProcessGroup ∉ resultsTrace env := by
  simp [resultsTrace]

theorem mkTrainer_not_mem_preTrace (env : Env) (t : TrainerArgs) :
    Event.mkTrainer t ∉ preTrace env := by
  cases h : (effConfig env).verbose <;> simp [preTrace, h]

theorem printConfig_mem_preTrace (env : Env) (c : Config) :
    Event.printConfig c ∈ preTrace env ↔
      (c = effConfig env ∧ (effConfig env).verbose = true) := by
  cases h : (effConfig env).verbose <;> simp [preTrace, h]

theorem print_metric_mem_resultsTrace (env : Env) (kv : String × String)
    (h : kv ∈ env.metrics) :
    Event.print (kv.1 ++ ": " ++ kv.2) ∈ resultsTrace env := by
  simp only [resultsTrace, List.mem_cons]
  exact Or.inr (List.mem_map_of_mem _ h)

/-- The run trace after `preTrace`: chosen by the same oracles as `runMain`,
used to state where events can occur. -/
def tailTrace (env : Env) : List Event :=
  match env.dataExn with
  | some _ => []
  | none =>
    match env.modelExn with
    | some _ => []
    | none =>
      match env.procExn with
      | some _ => []
      | none =>
        midTrace env ++
        match env.resumeExn with
        | some e => failTrace e
        | none =>
          postTrace env ++
          match env.evalExn with
          | some _ => []
          | none =>
            resultsTrace env ++
            (if env.dist_initialized then [Event.destroyProcessGroup] else [])

theorem runMain_fst (env : Env) (hc : env.configExn = none) :
    (runMain env).1 = preTrace env ++ tailTrace env := by
  cases hd : env.dataExn <;> cases hm : env.modelExn <;>
    cases hp : env.procExn <;> cases hr : env.resumeExn <;>
    cases he : env.evalExn <;> cases hdist : env.dist_initialized <;>
    simp [runMain, tailTrace, hc, hd, hm, hp, hr, he, hdist, List.append_assoc]

theorem mkTrainer_eq_of_mem_tailTrace (env : Env) (t : TrainerArgs)
    (h : Event.mkTrainer t ∈ tailTrace env) : t = trainerArgsOf env := by
  cases hd : env.dataExn <;> cases hm : env.modelExn <;>
    cases hp : env.procExn <;> cases hr : env.resumeExn <;>
    cases he : env.evalExn <;> cases hdist : env.dist_initialized <;>
    simp [tailTrace, hd, hm, hp, hr, he, hdist, midTrace, failTrace,
      postTrace, resultsTrace] at h <;> exact h

theorem printConfig_not_mem_tailTrace (env : Env) (c : Config) :
    Event.printConfig c ∉ tailTrace env := by
  cases hd : env.dataExn <;> cases hm : env.modelExn <;>
    cases hp : env.procExn <;> cases hr : env.resumeExn <;>
    cases he : env.evalExn <;> cases hdist : env.dist_initialized <;>
    simp [tailTrace, hd, hm, hp, hr, he, hdist, midTrace, failTrace,
      postTrace, resultsTrace]

/-! ### Concrete environment used by the witnesses -/

/-- A concrete configuration with patching and distributed mode enabled. -/
def cfgOk : Config :=
  { verbose := true, folder := "data", train_resolution := 128, n_train := 4,
    batch_size := 2, test_resolutions := [128, 256], n_tests := [2, 2],
    test_batch_sizes := [2, 1], encode_input := true, encode_output := true,
    patching_levels := 1, patching_padding := 7, patching_stitching := true,
    use_distributed := true, learning_rate := 5, n_epochs := 3,
    mixed_precision := false, eval_interval := 1, wandb_log_output := false }

/-- A concrete environment in which every stage succeeds. -/
def envOk : Env :=
  { checkpoint_dir := "./ckpt", config := cfgOk, configExn := none,
    is_logger := true, device := 0, rank := 0, dataExn := none,
    train_loader := { dataset := 10, batch_size := 2, shuffle := true,
                      sampler := none },
    test_loaders :=
      [(128, { dataset := 11, batch_size := 2, shuffle := false,
               sampler := none }),
       (256, { dataset := 12, batch_size := 1, shuffle := false,
               sampler := none })],
    orig_processor := { in_normalizer := 1, out_normalizer := 2 },
    modelExn := none, model_id := 42, procExn := none, resumeExn := none,
    evalExn := none, metrics := [("128_h1", "0.1"), ("128_l2", "0.2")],
    dist_initialized := true }

theorem wrapTests_eq_zip :
    ∀ (tests : List (Nat × Loader)) (bs : List Nat) (rank : Nat),
    tests.length ≤ bs.length →
    wrapTests rank tests bs =
      (tests.zip bs).map (fun x => (x.1.1, distLoader x.1.2.dataset x.2 rank))
  | [], bs, _, _ => by cases bs <;> rfl
  | t :: ts, [], _, h => by simp at h
  | (res, l) :: ts, b :: bs, rank, h => by
    have h' : ts.length ≤ bs.length := by simpa using h
    simp [wrapTests, wrapTests_eq_zip ts bs rank h']

/-! ### Claims about the run of `main` -/

/-- C1: if loading the checkpoint via `trainer.resume_state_from_dir` raises
any exception, the script catches it, prints the exception and a hint
message naming `best_model_state_dict.pt` and `model_state_dict.pt`, and
exits with status 1; if loading succeeds, it prints a success message and
continues to evaluation. -/
theorem claim_C1_checkpoint_error_handling (env : Env)
    (h1 : env.configExn = none) (h2 : env.dataExn = none)
    (h3 : env.modelExn = none) (h4 : env.procExn = none) :
    (∀ e, env.resumeExn = some e →
       runMain env =
         (preTrace env ++ midTrace env ++ failTrace e, Outcome.exited 1) ∧
       Event.print ("Error loading checkpoint: " ++ e) ∈ failTrace e ∧
       Event.print hintMsg ∈ failTrace e ∧
       evalCalls (preTrace env ++ midTrace env ++ failTrace e) = []) ∧
    (env.resumeExn = none →
       Event.print "Checkpoint loaded successfully." ∈ (runMain env).1 ∧
       evalCalls (runMain env).1 ≠ []) := by
  constructor
  · intro e he
    refine ⟨?_, ?_, ?_, ?_⟩
    · simp [runMain, h1, h2, h3, h4, he, List.append_assoc]
    · simp [failTrace]
    · simp [failTrace]
    · simp [evalCalls_append, evalCalls_preTrace, evalCalls_midTrace,
        evalCalls_failTrace]
  · intro hr
    constructor
    · cases he : env.evalExn <;> cases hdist : env.dist_initialized <;>
        simp [runMain, h1, h2, h3, h4, hr, he, hdist, postTrace]
    · cases he : env.evalExn <;> cases hdist : env.dist_initialized <;>
        simp [runMain, h1, h2, h3, h4, hr, he, hdist, evalCalls_append,
          evalCalls_preTrace, evalCalls_midTrace, evalCalls_postTrace,
          evalCalls_resultsTrace, evalCalls]

/-- Witness for C1: on a failing environment the run exits with status 1
after printing the hint; on a succeeding one the success message is
printed. -/
theorem claim_C1_checkpoint_error_handling_witness :
    (runMain { envOk with resumeExn := some "file not found" }).2 =
      Outcome.exited 1 ∧
    Event.print hintMsg ∈ failTrace "file not found" ∧
    Event.print "Checkpoint loaded successfully." ∈ (runMain envOk).1 := by
  have hfail :=
    (claim_C1_checkpoint_error_handling
      { envOk with resumeExn := some "file not found" }
      rfl rfl rfl rfl).1 "file not found" rfl
  have hok :=
    (claim_C1_checkpoint_error_handling envOk rfl rfl rfl rfl).2 rfl
  exact ⟨by rw [hfail.1], hfail.2.2.1, hok.1⟩

/-- C3: if and only if `config.distributed.use_distributed` is true, the
train loader and every test loader are replaced by new loaders whose sampler
is a `DistributedSampler` over the same underlying dataset (the train loader
with `config.data.batch_size`, each test loader with `shuffle=False` and the
batch size from `config.data.test_batch_sizes` paired with it in iteration
order); otherwise the loaders are used unchanged.  The pairing hypothesis
says the batch-size list is long enough for every test loader to receive
one. -/
theorem claim_C3_distributed_loaders (cfg : Config) (rank : Nat)
    (train : Loader) (tests : List (Nat × Loader))
    (hlen : tests.length ≤ cfg.test_batch_sizes.length) :
    (cfg.use_distributed = true →
       wrapLoaders cfg rank train tests =
         (distLoader train.dataset cfg.batch_size rank,
          (tests.zip cfg.test_batch_sizes).map
            (fun x => (x.1.1, distLoader x.1.2.dataset x.2 rank)))) ∧
    (cfg.use_distributed = false →
       wrapLoaders cfg rank train tests = (train, tests)) ∧
    (∀ db bs r,
       (distLoader db bs r).sampler = some { dataset := db, rank := r } ∧
       (distLoader db bs r).shuffle = false ∧
       (distLoader db bs r).dataset = db ∧
       (distLoader db bs r).batch_size = bs) := by
  refine ⟨fun h => ?_, fun h => by simp [wrapLoaders, h],
    fun db bs r => ⟨rfl, rfl, rfl, rfl⟩⟩
  simp only [wrapLoaders, h, if_true]
  rw [wrapTests_eq_zip tests cfg.test_batch_sizes rank hlen]

/-- Witness for C3: the concrete distributed environment. -/
theorem claim_C3_distributed_loaders_witness :
    envOk.test_loaders.length ≤ cfgOk.test_batch_sizes.length ∧
    wrapLoaders cfgOk 0 envOk.train_loader envOk.test_loaders =
      (distLoader envOk.train_loader.dataset cfgOk.batch_size 0,
       (envOk.test_loaders.zip cfgOk.test_batch_sizes).map
         (fun x => (x.1.1, distLoader x.1.2.dataset x.2 0))) :=
  ⟨by decide,
   (claim_C3_distributed_loaders cfgOk 0 envOk.train_loader envOk.test_loaders
     (by decide)).1 rfl⟩

/-- C4: if and only if `config.patching.levels > 0`, the data processor is
replaced by an `MGPatchingDataProcessor` built from the model, the original
normalizers and the patching config; in either case the result is moved to
the device, and it is the processor handed to the `Trainer`. -/
theorem claim_C4_patching_processor (env : Env)
    (hc : env.configExn = none) :
    (∀ (cfg : Config) (model : Nat) (orig : OrigProc) (device : Nat),
       ((setupProcessor cfg model orig device).core =
          ProcessorCore.mgPatching model orig.in_normalizer
            orig.out_normalizer cfg.patching_padding cfg.patching_stitching
            cfg.patching_levels cfg.use_distributed
         ↔ 0 < cfg.patching_levels) ∧
       (cfg.patching_levels = 0 →
          (setupProcessor cfg model orig device).core =
            ProcessorCore.orig orig) ∧
       (setupProcessor cfg model orig device).device = some device) ∧
    (∀ t, Event.mkTrainer t ∈ (runMain env).1 →
       t.data_processor =
         setupProcessor (effConfig env) env.model_id env.orig_processor
           env.device) := by
  constructor
  · intro cfg model orig device
    by_cases h : 0 < cfg.patching_levels
    · refine ⟨by simp [setupProcessor, h], fun h0 => ?_, rfl⟩
      omega
    · have h0 : cfg.patching_levels = 0 := by omega
      refine ⟨?_, fun _ => by simp [setupProcessor, h], rfl⟩
      simp [setupProcessor, h]
  · intro t ht
    rw [runMain_fst env hc] at ht
    rcases List.mem_append.mp ht with h1 | h2
    · exact absurd h1 (mkTrainer_not_mem_preTrace env t)
    · rw [mkTrainer_eq_of_mem_tailTrace env t h2]
      rfl

/-- Witness for C4: the concrete environment with `patching.levels = 1`. -/
theorem claim_C4_patching_processor_witness :
    envOk.configExn = none ∧
    ((setupProcessor cfgOk 42 envOk.orig_processor 0).core =
       ProcessorCore.mgPatching 42 envOk.orig_processor.in_normalizer
         envOk.orig_processor.out_normalizer cfgOk.patching_padding
         cfgOk.patching_stitching cfgOk.patching_levels
         cfgOk.use_distributed
      ↔ 0 < cfgOk.patching_levels) :=
  ⟨rfl, ((claim_C4_patching_processor envOk rfl).1 cfgOk 42
    envOk.orig_processor 0).1⟩

/-- C5: the only exception handler surrounds checkpoint restoration: any
exception raised during config parsing, data loading, model construction,
data-processor setup, or evaluation propagates out of `main` unhandled,
while a checkpoint-restore exception leads to exit status 1 instead. -/
theorem claim_C5_single_handler (env : Env) :
    (∀ e, env.configExn = some e → runMain env = ([], Outcome.raised e)) ∧
    (∀ e, env.configExn = none → env.dataExn = some e →
       (runMain env).2 = Outcome.raised e) ∧
    (∀ e, env.configExn = none → env.dataExn = none →
       env.modelExn = some e → (runMain env).2 = Outcome.raised e) ∧
    (∀ e, env.configExn = none → env.dataExn = none →
       env.modelExn = none → env.procExn = some e →
       (runMain env).2 = Outcome.raised e) ∧
    (∀ e, env.configExn = none → env.dataExn = none →
       env.modelExn = none → env.procExn = none → env.resumeExn = none →
       env.evalExn = some e → (runMain env).2 = Outcome.raised e) ∧
    (∀ e, env.configExn = none → env.dataExn = none →
       env.modelExn = none → env.procExn = none → env.resumeExn = some e →
       (runMain env).2 = Outcome.exited 1) := by
  refine ⟨?_, ?_, ?_, ?_, ?_, ?_⟩ <;> intros <;> simp [runMain, *]

/-- Witness for C5: each kind of failure at the concrete environment. -/
theorem claim_C5_single_handler_witness :
    (runMain { envOk with configExn := some "bad toml" }).2 =
      Outcome.raised "bad toml" ∧
    (runMain { envOk with dataExn := some "no data" }).2 =
      Outcome.raised "no data" ∧
    (runMain { envOk with evalExn := some "cuda error" }).2 =
      Outcome.raised "cuda error" ∧
    (runMain { envOk with resumeExn := some "no checkpoint" }).2 =
      Outcome.exited 1 := by
  refine ⟨?_, ?_, ?_, ?_⟩
  · rw [(claim_C5_single_handler _).1 "bad toml" rfl]
  · exact (claim_C5_single_handler _).2.1 "no data" rfl rfl
  · exact (claim_C5_single_handler _).2.2.2.2.1 "cuda error"
      rfl rfl rfl rfl rfl rfl
  · exact (claim_C5_single_handler _).2.2.2.2.2 "no checkpoint"
      rfl rfl rfl rfl rfl

/-- C6: the distributed teardown happens after evaluation and metric
printing, as the very last event of the run, and only when a process group
is initialized; no teardown occurs on the checkpoint-failure exit path. -/
theorem claim_C6_teardown_last (env : Env)
    (h1 : env.configExn = none) (h2 : env.dataExn = none)
    (h3 : env.modelExn = none) (h4 : env.procExn = none) :
    (env.resumeExn = none → env.evalExn = none →
       (env.dist_initialized = true →
          (runMain env).1.getLast? = some Event.destroyProcessGroup ∧
          Event.destroyProcessGroup ∉ (runMain env).1.dropLast ∧
          evalCalls (runMain env).1.dropLast ≠ [] ∧
          (∀ kv ∈ env.metrics,
             Event.print (kv.1 ++ ": " ++ kv.2) ∈ (runMain env).1.dropLast)) ∧
       (env.dist_initialized = false →
          Event.destroyProcessGroup ∉ (runMain env).1)) ∧
    (∀ e, env.resumeExn = some e →
       Event.destroyProcessGroup ∉ (runMain env).1) := by
  constructor
  · intro hr he
    constructor
    · intro hdist
      have hrm : runMain env =
          (preTrace env ++ midTrace env ++ postTrace env ++
             resultsTrace env ++ [Event.destroyProcessGroup],
           Outcome.finished) := by
        simp [runMain, h1, h2, h3, h4, hr, he, hdist, List.append_assoc]
      refine ⟨?_, ?_, ?_, ?_⟩
      · rw [hrm]
        simp [List.getLast?_concat]
      · rw [hrm]
        simp [List.dropLast_concat, destroy_not_mem_preTrace,
          destroy_not_mem_midTrace, destroy_not_mem_postTrace,
          destroy_not_mem_resultsTrace]
      · rw [hrm]
        simp [List.dropLast_concat, evalCalls_append, evalCalls_preTrace,
          evalCalls_midTrace, evalCalls_postTrace, evalCalls_resultsTrace]
      · intro kv hkv
        rw [hrm]
        simp only [List.dropLast_concat]
        exact List.mem_append_right _
          (print_metric_mem_resultsTrace env kv hkv)
    · intro hdist
      simp [runMain, h1, h2, h3, h4, hr, he, hdist,
        destroy_not_mem_preTrace, destroy_not_mem_midTrace,
        destroy_not_mem_postTrace, destroy_not_mem_resultsTrace]
  · intro e he
    simp [runMain, h1, h2, h3, h4, he, destroy_not_mem_preTrace,
      destroy_not_mem_midTrace, destroy_not_mem_failTrace]

/-- Witness for C6: in the concrete environment with an initialized process
group the teardown is the final event. -/
theorem claim_C6_teardown_last_witness :
    envOk.dist_initialized = true ∧
    (runMain envOk).1.getLast? = some Event.destroyProcessGroup :=
  ⟨rfl, (((claim_C6_teardown_last envOk rfl rfl rfl rfl).1 rfl rfl).1 rfl).1⟩

/-- C7: after a successful checkpoint load the script calls `evaluate_all`
exactly once, with `epoch=0`, the test loaders, empty `eval_modes` and the
loss dictionary holding exactly `h1` (H1Loss, d=2) and `l2`
(LpLoss, d=2, p=2), and then prints every metric entry as `key: value`. -/
theorem claim_C7_evaluate_all_once (env : Env)
    (h1 : env.configExn = none) (h2 : env.dataExn = none)
    (h3 : env.modelExn = none) (h4 : env.procExn = none)
    (h5 : env.resumeExn = none) :
    evalCalls (runMain env).1 =
      [Event.evaluateAll 0 eval_losses
        (wrapLoaders (effConfig env) env.rank env.train_loader
          env.test_loaders).2 []] ∧
    eval_losses = [("h1", Loss.h1Loss 2), ("l2", Loss.lpLoss 2 2)] ∧
    (env.evalExn = none →
       ∀ kv ∈ env.metrics,
         Event.print (kv.1 ++ ": " ++ kv.2) ∈ (runMain env).1) := by
  refine ⟨?_, rfl, ?_⟩
  · cases he : env.evalExn <;> cases hdist : env.dist_initialized <;>
      simp [runMain, h1, h2, h3, h4, h5, he, hdist, evalCalls_append,
        evalCalls_preTrace, evalCalls_midTrace, evalCalls_postTrace,
        evalCalls_resultsTrace, evalCalls, evalCalls_map_print]
  · intro he kv hkv
    have hmem := print_metric_mem_resultsTrace env kv hkv
    rw [runMain_fst env h1]
    refine List.mem_append_right _ ?_
    simp only [tailTrace, h2, h3, h4, h5, he]
    exact List.mem_append_right _
      (List.mem_append_right _ (List.mem_append_left _ hmem))

/-- Witness for C7: the concrete successful run has exactly one
`evaluate_all` call with the stated arguments. -/
theorem claim_C7_evaluate_all_once_witness :
    envOk.resumeExn = none ∧
    evalCalls (runMain envOk).1 =
      [Event.evaluateAll 0 eval_losses
        (wrapLoaders (effConfig envOk) envOk.rank envOk.train_loader
          envOk.test_loaders).2 []] :=
  ⟨rfl, (claim_C7_evaluate_all_once envOk rfl rfl rfl rfl rfl).1⟩

/-- C9: the `Trainer` is always constructed with `wandb_log=False`,
regardless of the loaded configuration. -/
theorem claim_C9_wandb_disabled (env : Env) (t : TrainerArgs)
    (h : Event.mkTrainer t ∈ (runMain env).1) : t.wandb_log = false := by
  cases hc : env.configExn with
  | some e => simp [runMain, hc] at h
  | none =>
    rw [runMain_fst env hc] at h
    rcases List.mem_append.mp h with h1 | h2
    · exact absurd h1 (mkTrainer_not_mem_preTrace env t)
    · rw [mkTrainer_eq_of_mem_tailTrace env t h2]
      rfl

/-- Witness for C9: the trainer constructed in the concrete run has
`wandb_log = false`. -/
theorem claim_C9_wandb_disabled_witness :
    Event.mkTrainer (trainerArgsOf envOk) ∈ (runMain envOk).1 ∧
    (trainerArgsOf envOk).wandb_log = false := by
  have hm : Event.mkTrainer (trainerArgsOf envOk) ∈ (runMain envOk).1 := by
    rw [runMain_fst envOk rfl]
    refine List.mem_append_right _ ?_
    simp [tailTrace, midTrace, envOk]
  exact ⟨hm, claim_C9_wandb_disabled envOk (trainerArgsOf envOk) hm⟩

/-- C10: the effective verbosity is the conjunction of the configured
verbose flag and `is_logger`; it governs config printing and is the value
passed to the `Trainer`, so a non-logger process never prints the
configuration. -/
theorem claim_C10_verbose_conjunction (env : Env)
    (hc : env.configExn = none) :
    (effConfig env).verbose = (env.config.verbose && env.is_logger) ∧
    (∀ c, Event.printConfig c ∈ (runMain env).1 ↔
       (c = effConfig env ∧ (env.config.verbose && env.is_logger) = true)) ∧
    (env.is_logger = false →
       ∀ c, Event.printConfig c ∉ (runMain env).1) ∧
    (∀ t, Event.mkTrainer t ∈ (runMain env).1 →
       t.verbose = (env.config.verbose && env.is_logger)) := by
  have hiff : ∀ c, Event.printConfig c ∈ (runMain env).1 ↔
      (c = effConfig env ∧ (env.config.verbose && env.is_logger) = true) := by
    intro c
    rw [runMain_fst env hc]
    rw [List.mem_append]
    constructor
    · rintro (h1 | h2)
      · exact (printConfig_mem_preTrace env c).mp h1
      · exact absurd h2 (printConfig_not_mem_tailTrace env c)
    · intro h
      exact Or.inl ((printConfig_mem_preTrace env c).mpr h)
  refine ⟨rfl, hiff, ?_, ?_⟩
  · intro hlog c hmem
    have h := (hiff c).mp hmem
    rw [hlog] at h
    simp at h
  · intro t ht
    rw [runMain_fst env hc] at ht
    rcases List.mem_append.mp ht with h1 | h2
    · exact absurd h1 (mkTrainer_not_mem_preTrace env t)
    · rw [mkTrainer_eq_of_mem_tailTrace env t h2]
      rfl

/-- Witness for C10: in the concrete logger environment the configuration is
printed and the effective flag is the conjunction. -/
theorem claim_C10_verbose_conjunction_witness :
    envOk.configExn = none ∧
    (Event.printConfig (effConfig envOk) ∈ (runMain envOk).1 ↔
       (effConfig envOk = effConfig envOk ∧
        (envOk.config.verbose && envOk.is_logger) = true)) :=
  ⟨rfl, (claim_C10_verbose_conjunction envOk rfl).2.1 (effConfig envOk)⟩

end EvalNS
